import Mathlib

/-!
# Session lifecycle, navigation and data orchestration of `src/frontend/App.js`

A shallow embedding of the React components of `src/frontend/App.js`.

* Component state (`useState` slots) is a structure; an effect or an event
  handler is a function from the state before to the state after, together
  with the list of observable effects it performed, in program order.
* The host platform is an explicit input: `localStorage` is a `Storage`
  value, `window.location.search` is an already parsed `URLSearchParams`
  value, the answer of the network to a `fetch` is a `FetchOutcome`, and the
  conversion `new Date(s).toISOString()` is a function parameter.
* A JavaScript value that is `null` or a string is an `Option String`.
-/

namespace SocialMediaPlatform

/-! ## Constants (lines 5-8) -/

def AUTH_API_BASE_URL : String := "http://localhost:8081"
def ACCOUNT_API_BASE_URL : String := "http://localhost:8082"
def POST_API_BASE_URL : String := "http://localhost:8083"

/-! ## JavaScript truthiness of a value that is `null` or a string -/

/-- JavaScript truthiness of a value that is `null` or a string: `null` and
the empty string are falsy, every other string is truthy. -/
def truthy : Option String → Bool
  | none => false
  | some s => s != ""

/-! ## Data model -/

/-- An account as returned by the account service. -/
structure Account where
  platformUserId : String
  platform : String
  username : String
  followers : Nat
  profilePic : String
  deriving DecidableEq, Repr

/-- A post as returned by the post service. -/
structure Post where
  id : String
  platform : String
  content : String
  scheduledAt : String
  deriving DecidableEq, Repr

/-- One point of the analytics series: a time-bucket label and one value per
platform. -/
structure AnalyticsPoint where
  name : String
  values : List (String × Int)
  deriving DecidableEq, Repr

/-! ## Durable storage (`localStorage`) -/

/-- The content of `localStorage`: a sequence of key/value pairs with
distinct keys, in insertion order. -/
abbrev Storage := List (String × String)

namespace Storage

/-- The call `localStorage.getItem(key)`: the stored value, or `null`. -/
def getItem : Storage → String → Option String
  | [], _ => none
  | (k, v) :: rest, key => if k = key then some v else getItem rest key

/-- The call `localStorage.setItem(key, value)`: replaces the value of an
existing key, appends a new key. -/
def setItem : Storage → String → String → Storage
  | [], key, value => [(key, value)]
  | (k, v) :: rest, key, value =>
    if k = key then (k, value) :: rest else (k, v) :: setItem rest key value

/-- A sequence of `localStorage.setItem` calls, in order. -/
def setItems (s : Storage) (writes : List (String × String)) : Storage :=
  writes.foldl (fun acc kv => setItem acc kv.1 kv.2) s

end Storage

/-! ## The query string (`URLSearchParams`) -/

/-- The parsed query string of the location: its name/value pairs in
order. The query `?token=abc&x=1` is `[("token", "abc"), ("x", "1")]`, and
`?token=` is `[("token", "")]`. -/
abbrev URLSearchParams := List (String × String)

namespace URLSearchParams

/-- The call `urlParams.get(name)`: the value of the first pair with that
name, or `null`. -/
def get : URLSearchParams → String → Option String
  | [], _ => none
  | (k, v) :: rest, name => if k = name then some v else get rest name

end URLSearchParams

/-! ## Closures passed as props -/

/-- The closures the program passes down as callbacks, defunctionalised:
`() => setCurrentPage(page)` (line 482). -/
inductive Callback where
  | setCurrentPage (page : String)
  deriving DecidableEq, Repr

/-! ## `App` (lines 459-486) -/

/-- The element `renderContent` returns, with the props it passes. -/
inductive View where
  | Login
  | AuthSuccess
  | Dashboard (token : String)
  | Scheduler (token : String)
  | Analytics (token : String)
  | Engagement
  | PostCreator (token : String) (onPostCreated : Callback)
  deriving DecidableEq, Repr

/-- The `useState` slots of `App` (lines 460-462). -/
structure AppState where
  currentPage : String
  token : Option String
  isSidebarOpen : Bool
  deriving DecidableEq, Repr

namespace App

/-- The initial state of `App` (lines 460-462): the page is `'dashboard'`,
the token is read from `localStorage`, the sidebar is closed. -/
def init (localStorage : Storage) : AppState :=
  { currentPage := "dashboard"
    token := Storage.getItem localStorage "jwtToken"
    isSidebarOpen := false }

/-- The state setter `setCurrentPage`. -/
def setCurrentPage (page : String) (s : AppState) : AppState :=
  { s with currentPage := page }

/-- The state setter `setToken`. -/
def setToken (token : Option String) (s : AppState) : AppState :=
  { s with token := token }

/-- Running a callback that `App` handed to a child. -/
def runCallback (s : AppState) : Callback → AppState
  | .setCurrentPage page => setCurrentPage page s

/-- The function `renderContent` (lines 464-486); `pathname` is
`window.location.pathname`. -/
def renderContent (s : AppState) (pathname : String) : View :=
  match s.token with
  | none => if pathname = "/auth-success" then .AuthSuccess else .Login
  | some token =>
    if token = "" then
      if pathname = "/auth-success" then .AuthSuccess else .Login
    else if s.currentPage = "dashboard" then .Dashboard token
    else if s.currentPage = "scheduler" then .Scheduler token
    else if s.currentPage = "analytics" then .Analytics token
    else if s.currentPage = "engagement" then .Engagement
    else if s.currentPage = "new-post" then
      .PostCreator token (.setCurrentPage "scheduler")
    else .Dashboard token

end App

/-! ## `AuthSuccess` (lines 175-188) -/

/-- What the effect of `AuthSuccess` reads and writes: durable storage, the
`token` slot of `App` behind the `setToken` prop, the values assigned to
`window.location.href` (oldest first) and the `console.error` output. -/
structure World where
  localStorage : Storage
  app : AppState
  navigations : List String
  console : List String
  deriving DecidableEq, Repr

namespace AuthSuccess

/-- The effect of `AuthSuccess` (lines 176-188); `search` is the parsed
`window.location.search`. -/
def effect (search : URLSearchParams) (w : World) : World :=
  let jwtToken := URLSearchParams.get search "token"
  match jwtToken with
  | none =>
    { w with
      console := w.console ++ ["JWT token not found in URL."]
      navigations := w.navigations ++ ["/login"] }
  | some t =>
    if t = "" then
      { w with
        console := w.console ++ ["JWT token not found in URL."]
        navigations := w.navigations ++ ["/login"] }
    else
      { w with
        localStorage := Storage.setItem w.localStorage "jwtToken" t
        app := App.setToken (some t) w.app
        navigations := w.navigations ++ ["/"] }

end AuthSuccess

/-! ## Requests and responses -/

/-- The arguments of one `fetch` call. The body is the object handed to
`JSON.stringify`, when there is one: its fields in order, every value of
which is a string in this program. -/
structure Request where
  url : String
  method : String
  headers : List (String × String)
  body : Option (List (String × String))
  deriving DecidableEq, Repr

/-- What the network answers to one `fetch`: the promise rejects with an
error message, or it resolves to a response with a status and a body that
`response.json()` decodes to a value or rejects with an error message. -/
inductive FetchOutcome (α : Type) where
  | networkError (message : String)
  | response (status : Nat) (json : Except String α)

namespace FetchOutcome

/-- The property `response.ok`: the status is in the range 200-299. -/
def statusOk (status : Nat) : Bool := decide (200 ≤ status) && decide (status ≤ 299)

/-- The fetch succeeded for the program's purposes: a response in the 2xx
range whose body decodes. -/
def isSuccess {α : Type} : FetchOutcome α → Bool
  | .response status (.ok _) => statusOk status
  | _ => false

end FetchOutcome

/-- An observable effect of an effect hook or an event handler. -/
inductive Effect where
  | fetch (request : Request)
  | alert (message : String)
  | consoleLog (label : String)
  | consoleError (label : String) (error : String)
  | setIsSubmitting (value : Bool)
  | call (callback : Callback)
  deriving DecidableEq, Repr

/-- The requests issued in a trace, in order. -/
def requestsOf : List Effect → List Request
  | [] => []
  | .fetch r :: rest => r :: requestsOf rest
  | _ :: rest => requestsOf rest

/-- The callbacks invoked in a trace, in order. -/
def callsOf : List Effect → List Callback
  | [] => []
  | .call c :: rest => c :: callsOf rest
  | _ :: rest => callsOf rest

/-- The messages shown with `alert` in a trace, in order. -/
def alertsOf : List Effect → List String
  | [] => []
  | .alert m :: rest => m :: alertsOf rest
  | _ :: rest => alertsOf rest

/-- The state of `App` after the callbacks of a trace have run. -/
def App.afterTrace (s : AppState) (trace : List Effect) : AppState :=
  (callsOf trace).foldl App.runCallback s

/-! ## `Dashboard` (lines 24-135) -/

/-- The `useState` slots of `Dashboard` (lines 25-28), and the
`console.error` output of its effect. -/
structure DashboardState where
  accounts : List Account
  isLoading : Bool
  error : Option String
  analyticsData : List AnalyticsPoint
  console : List String
  deriving DecidableEq, Repr

/-- One child of the accounts grid (lines 107-115). -/
inductive AccountsItem where
  | AccountCard (account : Account)
  | message (text : String)
  deriving DecidableEq, Repr

/-- What `Dashboard` renders (lines 83-134): the spinner, the error page, or
the page with the accounts grid and the chart over `analyticsData`. -/
inductive DashboardView where
  | spinner
  | errorPage (message : String)
  | page (accountsGrid : List AccountsItem) (chartData : List AnalyticsPoint)
  deriving DecidableEq, Repr

namespace Dashboard

/-- The initial state (lines 25-28). -/
def init : DashboardState :=
  { accounts := [], isLoading := true, error := none, analyticsData := [], console := [] }

/-- The request of `fetchAccounts` (lines 33-39). -/
def accountsRequest (token : String) : Request :=
  { url := ACCOUNT_API_BASE_URL ++ "/api/accounts"
    method := "GET"
    headers := [("Authorization", "Bearer " ++ token), ("Content-Type", "application/json")]
    body := none }

/-- The request of `fetchAnalytics` (lines 58-64). -/
def analyticsRequest (token : String) : Request :=
  { url := POST_API_BASE_URL ++ "/api/analytics"
    method := "GET"
    headers := [("Authorization", "Bearer " ++ token), ("Content-Type", "application/json")]
    body := none }

/-- The `catch` and `finally` blocks of `fetchAccounts` (lines 47-52). -/
def fetchAccountsCatch (message : String) (s : DashboardState) : DashboardState :=
  { s with
    console := s.console ++ ["Fetch error: " ++ message]
    error := some message
    isLoading := false }

/-- The continuation of `fetchAccounts` (lines 41-52) once its `fetch` has
settled. -/
def fetchAccounts (outcome : FetchOutcome (List Account)) (s : DashboardState) :
    DashboardState :=
  match outcome with
  | .networkError message => fetchAccountsCatch message s
  | .response status json =>
    if !FetchOutcome.statusOk status then
      fetchAccountsCatch "Failed to fetch accounts. Please log in again." s
    else
      match json with
      | .error message => fetchAccountsCatch message s
      | .ok data => { s with accounts := data, isLoading := false }

/-- The `catch` block of `fetchAnalytics` (lines 72-74). -/
def fetchAnalyticsCatch (message : String) (s : DashboardState) : DashboardState :=
  { s with console := s.console ++ ["Fetch error: " ++ message] }

/-- The continuation of `fetchAnalytics` (lines 66-74) once its `fetch` has
settled. -/
def fetchAnalytics (outcome : FetchOutcome (List AnalyticsPoint)) (s : DashboardState) :
    DashboardState :=
  match outcome with
  | .networkError message => fetchAnalyticsCatch message s
  | .response status json =>
    if !FetchOutcome.statusOk status then
      fetchAnalyticsCatch "Failed to fetch analytics." s
    else
      match json with
      | .error message => fetchAnalyticsCatch message s
      | .ok data => { s with analyticsData := data }

/-- The requests the effect issues (lines 77-80): both, in this order, when
the token is truthy, none otherwise. -/
def effectRequests (token : Option String) : List Request :=
  match token with
  | none => []
  | some t => if t = "" then [] else [accountsRequest t, analyticsRequest t]

/-- The two fetches settle in no fixed order: the accounts fetch first, or
the analytics fetch first. -/
inductive Order where
  | accountsFirst
  | analyticsFirst
  deriving DecidableEq, Repr

/-- The state once both fetches of the effect (lines 30-81) have settled,
in the given order; with a falsy token the effect does nothing. -/
def effect (token : Option String) (order : Order)
    (accountsOutcome : FetchOutcome (List Account))
    (analyticsOutcome : FetchOutcome (List AnalyticsPoint)) (s : DashboardState) :
    DashboardState :=
  if truthy token then
    match order with
    | .accountsFirst => fetchAnalytics analyticsOutcome (fetchAccounts accountsOutcome s)
    | .analyticsFirst => fetchAccounts accountsOutcome (fetchAnalytics analyticsOutcome s)
  else s

/-- The accounts grid (lines 108-114). -/
def accountsGrid (accounts : List Account) : List AccountsItem :=
  if accounts.length > 0 then accounts.map AccountsItem.AccountCard
  else [.message
    "No accounts connected yet. Please go to your profile to connect a new one."]

/-- The render of `Dashboard` (lines 83-134). -/
def render (s : DashboardState) : DashboardView :=
  if s.isLoading then .spinner
  else
    match s.error with
    | some message =>
      if message = "" then .page (accountsGrid s.accounts) s.analyticsData
      else .errorPage message
    | none => .page (accountsGrid s.accounts) s.analyticsData

end Dashboard

/-- The view shows an error to the user: only the error page does. -/
def DashboardView.showsError : DashboardView → Bool
  | .errorPage _ => true
  | _ => false

/-! ## `Scheduler` (lines 324-382) -/

/-- The `useState` slots of `Scheduler` (lines 325-326), and the
`console.error` output of its effect. -/
structure SchedulerState where
  posts : List Post
  isLoading : Bool
  console : List String
  deriving DecidableEq, Repr

/-- One child of the posts list (lines 362-377). -/
inductive PostsItem where
  | row (post : Post)
  | message (text : String)
  deriving DecidableEq, Repr

/-- What `Scheduler` renders (lines 348-381). -/
inductive SchedulerView where
  | spinner
  | page (postsList : List PostsItem)
  deriving DecidableEq, Repr

namespace Scheduler

/-- The initial state (lines 325-326). -/
def init : SchedulerState := { posts := [], isLoading := true, console := [] }

/-- The request of `fetchPosts` (lines 331-333). -/
def postsRequest (token : String) : Request :=
  { url := POST_API_BASE_URL ++ "/api/posts"
    method := "GET"
    headers := [("Authorization", "Bearer " ++ token)]
    body := none }

/-- The `catch` and `finally` blocks of `fetchPosts` (lines 336-340). -/
def fetchPostsCatch (message : String) (s : SchedulerState) : SchedulerState :=
  { s with
    console := s.console ++ ["Failed to fetch posts: " ++ message]
    isLoading := false }

/-- The continuation of `fetchPosts` (lines 334-340) once its `fetch` has
settled. The status of the response is not read. -/
def fetchPosts (outcome : FetchOutcome (List Post)) (s : SchedulerState) : SchedulerState :=
  match outcome with
  | .networkError message => fetchPostsCatch message s
  | .response _ json =>
    match json with
    | .error message => fetchPostsCatch message s
    | .ok data => { s with posts := data, isLoading := false }

/-- The effect (lines 328-346): `fetchPosts` runs when the token is
truthy. -/
def effect (token : Option String) (outcome : FetchOutcome (List Post))
    (s : SchedulerState) : SchedulerState :=
  if truthy token then fetchPosts outcome s else s

/-- The posts list (lines 362-377). -/
def postsList (posts : List Post) : List PostsItem :=
  if posts.length > 0 then posts.map PostsItem.row
  else [.message "No posts scheduled yet. Create one now!"]

/-- The render of `Scheduler` (lines 348-381). -/
def render (s : SchedulerState) : SchedulerView :=
  if s.isLoading then .spinner else .page (postsList s.posts)

end Scheduler

/-! ## `Analytics` (lines 385-436) -/

/-- The `useState` slots of `Analytics` (lines 386-387), and the
`console.error` output of its effect. -/
structure AnalyticsState where
  analyticsData : List AnalyticsPoint
  isLoading : Bool
  console : List String
  deriving DecidableEq, Repr

namespace Analytics

/-- The initial state (lines 386-387). -/
def init : AnalyticsState := { analyticsData := [], isLoading := true, console := [] }

/-- The request of `fetchAnalytics` (lines 392-394). -/
def analyticsRequest (token : String) : Request :=
  { url := POST_API_BASE_URL ++ "/api/analytics"
    method := "GET"
    headers := [("Authorization", "Bearer " ++ token)]
    body := none }

/-- The `catch` and `finally` blocks of `fetchAnalytics` (lines 397-401). -/
def fetchAnalyticsCatch (message : String) (s : AnalyticsState) : AnalyticsState :=
  { s with
    console := s.console ++ ["Failed to fetch analytics: " ++ message]
    isLoading := false }

/-- The continuation of `fetchAnalytics` (lines 395-401) once its `fetch`
has settled. The status of the response is not read. -/
def fetchAnalytics (outcome : FetchOutcome (List AnalyticsPoint)) (s : AnalyticsState) :
    AnalyticsState :=
  match outcome with
  | .networkError message => fetchAnalyticsCatch message s
  | .response _ json =>
    match json with
    | .error message => fetchAnalyticsCatch message s
    | .ok data => { s with analyticsData := data, isLoading := false }

/-- The effect (lines 389-407): `fetchAnalytics` runs when the token is
truthy. -/
def effect (token : Option String) (outcome : FetchOutcome (List AnalyticsPoint))
    (s : AnalyticsState) : AnalyticsState :=
  if truthy token then fetchAnalytics outcome s else s

end Analytics

/-! ## `PostCreator` (lines 202-321) -/

/-- The `useState` slots of `PostCreator` (lines 203-207). -/
structure PostCreatorState where
  content : String
  platform : String
  scheduledAt : String
  isSubmitting : Bool
  accounts : List Account
  deriving DecidableEq, Repr

namespace PostCreator

/-- The initial state (lines 203-207). -/
def init : PostCreatorState :=
  { content := "", platform := "", scheduledAt := "", isSubmitting := false, accounts := [] }

/-- The request of `fetchAccounts` (lines 213-215); without a `method` the
request is a GET. -/
def accountsRequest (token : String) : Request :=
  { url := ACCOUNT_API_BASE_URL ++ "/api/accounts"
    method := "GET"
    headers := [("Authorization", "Bearer " ++ token)]
    body := none }

/-- The continuation of `fetchAccounts` (lines 216-223) once its `fetch` has
settled. The status of the response is not read. -/
def fetchAccounts (outcome : FetchOutcome (List Account)) (s : PostCreatorState) :
    PostCreatorState × List Effect :=
  match outcome with
  | .networkError message => (s, [.consoleError "Failed to fetch accounts:" message])
  | .response _ json =>
    match json with
    | .error message => (s, [.consoleError "Failed to fetch accounts:" message])
    | .ok data =>
      match data with
      | [] => ({ s with accounts := data }, [])
      | first :: _ => ({ s with accounts := data, platform := first.platform }, [])

/-- The effect (lines 209-226): `fetchAccounts` returns at once when the
token is falsy. -/
def effect (token : Option String) (outcome : FetchOutcome (List Account))
    (s : PostCreatorState) : PostCreatorState × List Effect :=
  match token with
  | none => (s, [])
  | some t =>
    if t = "" then (s, [])
    else ((fetchAccounts outcome s).1, .fetch (accountsRequest t) :: (fetchAccounts outcome s).2)

/-- The request of `handleSubmit` (lines 232-243); `iso` is the value of
`new Date(scheduledAt).toISOString()`. -/
def submitRequest (token : String) (s : PostCreatorState) (iso : String) : Request :=
  { url := POST_API_BASE_URL ++ "/api/posts"
    method := "POST"
    headers := [("Content-Type", "application/json"), ("Authorization", "Bearer " ++ token)]
    body := some [("platform", s.platform), ("content", s.content), ("scheduledAt", iso)] }

/-- The `catch` block of `handleSubmit` (lines 255-257). -/
def handleSubmitCatch (message : String) : List Effect :=
  [.consoleError "Error creating post:" message, .alert "Failed to schedule post."]

/-- The body of the `try` block of `handleSubmit` (lines 232-254): the
effects performed before it completes or throws. -/
def handleSubmitTry (toISOString : String → Except String String) (token : String)
    (onPostCreated : Option Callback) (outcome : FetchOutcome Post)
    (s : PostCreatorState) : List Effect :=
  match toISOString s.scheduledAt with
  | .error message => handleSubmitCatch message
  | .ok iso =>
    .fetch (submitRequest token s iso) ::
      match outcome with
      | .networkError message => handleSubmitCatch message
      | .response status json =>
        if !FetchOutcome.statusOk status then handleSubmitCatch "Failed to create post."
        else
          match json with
          | .error message => handleSubmitCatch message
          | .ok _ =>
            [.consoleLog "Post created:", .alert "Post scheduled successfully!"] ++
              match onPostCreated with
              | some callback => [.call callback]
              | none => []

/-- The handler `handleSubmit` (lines 228-261). `toISOString s` is the
value of `new Date(s).toISOString()`, or the message of the `RangeError` it
throws when `s` is not a valid time; `outcome` is what the network answers
if the request is issued. -/
def handleSubmit (toISOString : String → Except String String) (token : String)
    (onPostCreated : Option Callback) (outcome : FetchOutcome Post)
    (s : PostCreatorState) : PostCreatorState × List Effect :=
  ({ s with isSubmitting := false },
    [.setIsSubmitting true] ++
      handleSubmitTry toISOString token onPostCreated outcome s ++
      [.setIsSubmitting false])

end PostCreator

/-! ## The program as a whole -/

/-- The state of the program: the world, and the `useState` slots of each
page component. -/
structure System where
  world : World
  dashboard : DashboardState
  scheduler : SchedulerState
  analytics : AnalyticsState
  postCreator : PostCreatorState

/-- Everything the program does after its first render: the effect of
`AuthSuccess`, the settling of each of the six fetches, and the handlers of
the user interface. -/
inductive Operation where
  /-- The effect of `AuthSuccess` (lines 176-188) with this query string. -/
  | authSuccessEffect (search : URLSearchParams)
  /-- The fetch of `Dashboard.fetchAccounts` settles (lines 33-52). -/
  | dashboardAccounts (outcome : FetchOutcome (List Account))
  /-- The fetch of `Dashboard.fetchAnalytics` settles (lines 58-74). -/
  | dashboardAnalytics (outcome : FetchOutcome (List AnalyticsPoint))
  /-- The fetch of `Scheduler.fetchPosts` settles (lines 331-340). -/
  | schedulerPosts (outcome : FetchOutcome (List Post))
  /-- The fetch of `Analytics.fetchAnalytics` settles (lines 392-401). -/
  | analyticsSeries (outcome : FetchOutcome (List AnalyticsPoint))
  /-- The fetch of `PostCreator.fetchAccounts` settles (lines 213-223). -/
  | postCreatorAccounts (outcome : FetchOutcome (List Account))
  /-- A run of `PostCreator.handleSubmit` (lines 228-261) with the props
  `token` and `onPostCreated`, whose fetch, if issued, settles with
  `outcome`. -/
  | postCreatorSubmit (toISOString : String → Except String String) (token : String)
      (onPostCreated : Option Callback) (outcome : FetchOutcome Post)
  /-- A click on a sidebar button (lines 510, 519, 528, 537, 548). -/
  | selectPage (page : String)
  /-- A click on the menu button of the mobile header (line 493). -/
  | toggleSidebar
  /-- A click on the menu button of the sidebar (line 502). -/
  | closeSidebar
  /-- The handler `Login.handleLogin` (lines 139-141). -/
  | handleLogin (platform : String)
  /-- A change of the platform select (line 272). -/
  | setPlatform (value : String)
  /-- A change of the content textarea (line 286). -/
  | setContent (value : String)
  /-- A change of the schedule time input (line 298). -/
  | setScheduledAt (value : String)

namespace Operation

/-- The operation is the settling of one of the fetches issued by
`Dashboard`, `Scheduler`, `Analytics` and `PostCreator`. -/
def isFetchOutcome : Operation → Bool
  | .dashboardAccounts _ => true
  | .dashboardAnalytics _ => true
  | .schedulerPosts _ => true
  | .analyticsSeries _ => true
  | .postCreatorAccounts _ => true
  | .postCreatorSubmit _ _ _ _ => true
  | _ => false

/-- The operation is the success branch of the callback handler (lines
180-183): the effect of `AuthSuccess` with a truthy `token` parameter. -/
def isCallbackSuccess : Operation → Bool
  | .authSuccessEffect search => truthy (URLSearchParams.get search "token")
  | _ => false

end Operation

namespace System

/-- The world after the callbacks of a trace have run on `App`. -/
def worldAfterTrace (w : World) (trace : List Effect) : World :=
  { w with app := App.afterTrace w.app trace }

/-- One operation of the program. -/
def step (sys : System) : Operation → System
  | .authSuccessEffect search => { sys with world := AuthSuccess.effect search sys.world }
  | .dashboardAccounts outcome =>
    { sys with dashboard := Dashboard.fetchAccounts outcome sys.dashboard }
  | .dashboardAnalytics outcome =>
    { sys with dashboard := Dashboard.fetchAnalytics outcome sys.dashboard }
  | .schedulerPosts outcome =>
    { sys with scheduler := Scheduler.fetchPosts outcome sys.scheduler }
  | .analyticsSeries outcome =>
    { sys with analytics := Analytics.fetchAnalytics outcome sys.analytics }
  | .postCreatorAccounts outcome =>
    { sys with
      postCreator := (PostCreator.fetchAccounts outcome sys.postCreator).1
      world := worldAfterTrace sys.world
        (PostCreator.fetchAccounts outcome sys.postCreator).2 }
  | .postCreatorSubmit toISOString token onPostCreated outcome =>
    { sys with
      postCreator :=
        (PostCreator.handleSubmit toISOString token onPostCreated outcome sys.postCreator).1
      world := worldAfterTrace sys.world
        (PostCreator.handleSubmit toISOString token onPostCreated outcome sys.postCreator).2 }
  | .selectPage page =>
    { sys with
      world := { sys.world with
        app := { App.setCurrentPage page sys.world.app with isSidebarOpen := false } } }
  | .toggleSidebar =>
    { sys with
      world := { sys.world with
        app := { sys.world.app with isSidebarOpen := !sys.world.app.isSidebarOpen } } }
  | .closeSidebar =>
    { sys with
      world := { sys.world with app := { sys.world.app with isSidebarOpen := false } } }
  | .handleLogin platform =>
    { sys with
      world := { sys.world with
        navigations := sys.world.navigations ++
          [AUTH_API_BASE_URL ++ "/oauth/" ++ platform ++ "/login"] } }
  | .setPlatform value => { sys with postCreator := { sys.postCreator with platform := value } }
  | .setContent value => { sys with postCreator := { sys.postCreator with content := value } }
  | .setScheduledAt value =>
    { sys with postCreator := { sys.postCreator with scheduledAt := value } }

end System

/-! ## Lemmas on the platform model -/

theorem truthy_eq_false_iff (t : Option String) :
    truthy t = false ↔ t = none ∨ t = some "" := by
  cases t with
  | none => simp [truthy]
  | some v => simp [truthy]

theorem truthy_some_iff (t : String) : truthy (some t) = true ↔ t ≠ "" := by
  simp [truthy]

theorem Storage.getItem_setItem_same (s : Storage) (key value : String) :
    Storage.getItem (Storage.setItem s key value) key = some value := by
  induction s with
  | nil => simp [Storage.setItem, Storage.getItem]
  | cons kv rest ih =>
    obtain ⟨k, v⟩ := kv
    by_cases h : k = key
    · simp [Storage.setItem, Storage.getItem, h]
    · simp [Storage.setItem, Storage.getItem, h, ih]

theorem Storage.getItem_setItem_other (s : Storage) (key other value : String)
    (h : other ≠ key) :
    Storage.getItem (Storage.setItem s other value) key = Storage.getItem s key := by
  induction s with
  | nil => simp [Storage.setItem, Storage.getItem, h]
  | cons kv rest ih =>
    obtain ⟨k, v⟩ := kv
    by_cases hk : k = other
    · subst hk
      simp [Storage.setItem, Storage.getItem, h]
    · by_cases hk2 : k = key
      · subst hk2
        simp [Storage.setItem, Storage.getItem, hk]
      · simp [Storage.setItem, Storage.getItem, hk, hk2, ih]

theorem Storage.getItem_setItems_other (writes : List (String × String)) (key : String)
    (h : ∀ kv ∈ writes, kv.1 ≠ key) (s : Storage) :
    Storage.getItem (Storage.setItems s writes) key = Storage.getItem s key := by
  induction writes generalizing s with
  | nil => rfl
  | cons kv rest ih =>
    have h1 : kv.1 ≠ key := h kv (List.mem_cons_self _ _)
    have h2 : ∀ x ∈ rest, x.1 ≠ key := fun x hx => h x (List.mem_cons_of_mem _ hx)
    show Storage.getItem (Storage.setItems (Storage.setItem s kv.1 kv.2) rest) key = _
    rw [ih h2, Storage.getItem_setItem_other s key kv.1 kv.2 h1]

/-! ## Session lifecycle and navigation -/

/-- C1 (auth gating): whatever the selected page and the location path, when
the token is `null` or the empty string `renderContent` returns `AuthSuccess`
at the path `/auth-success` and `Login` at every other path, and so never
`Dashboard`, `Scheduler`, `Analytics`, `Engagement` or `PostCreator`. -/
theorem C1_auth_gating (s : AppState) (pathname : String)
    (h : s.token = none ∨ s.token = some "") :
    App.renderContent s pathname
        = (if pathname = "/auth-success" then View.AuthSuccess else View.Login) ∧
      (∀ t, App.renderContent s pathname ≠ View.Dashboard t) ∧
      (∀ t, App.renderContent s pathname ≠ View.Scheduler t) ∧
      (∀ t, App.renderContent s pathname ≠ View.Analytics t) ∧
      App.renderContent s pathname ≠ View.Engagement ∧
      (∀ t cb, App.renderContent s pathname ≠ View.PostCreator t cb) := by
  have key : App.renderContent s pathname
      = (if pathname = "/auth-success" then View.AuthSuccess else View.Login) := by
    rcases h with h | h <;> simp [App.renderContent, h]
  refine ⟨key, ?_, ?_, ?_, ?_, ?_⟩ <;> rw [key] <;> split <;> simp

theorem C1_auth_gating_witness :
    App.renderContent { currentPage := "scheduler", token := some "", isSidebarOpen := false }
        "/auth-success" = View.AuthSuccess ∧
      App.renderContent { currentPage := "analytics", token := none, isSidebarOpen := true }
        "/" = View.Login :=
  ⟨by simpa using (C1_auth_gating
      { currentPage := "scheduler", token := some "", isSidebarOpen := false }
      "/auth-success" (Or.inr rfl)).1,
   by simpa using (C1_auth_gating
      { currentPage := "analytics", token := none, isSidebarOpen := true }
      "/" (Or.inl rfl)).1⟩

/-- C2 (authenticated page resolution): with a non-empty token and at every
location path, `renderContent` returns the view of the selected page
(`dashboard`, `scheduler`, `analytics`, `engagement`, `new-post`), every
other selection resolves to `Dashboard`, and the initial selection is
`dashboard`. -/
theorem C2_page_resolution (s : AppState) (pathname t : String)
    (ht : s.token = some t) (hne : t ≠ "") :
    (s.currentPage = "dashboard" → App.renderContent s pathname = View.Dashboard t) ∧
      (s.currentPage = "scheduler" → App.renderContent s pathname = View.Scheduler t) ∧
      (s.currentPage = "analytics" → App.renderContent s pathname = View.Analytics t) ∧
      (s.currentPage = "engagement" → App.renderContent s pathname = View.Engagement) ∧
      (s.currentPage = "new-post" →
        App.renderContent s pathname
          = View.PostCreator t (Callback.setCurrentPage "scheduler")) ∧
      (s.currentPage ≠ "dashboard" → s.currentPage ≠ "scheduler" →
        s.currentPage ≠ "analytics" → s.currentPage ≠ "engagement" →
        s.currentPage ≠ "new-post" → App.renderContent s pathname = View.Dashboard t) ∧
      (∀ localStorage, (App.init localStorage).currentPage = "dashboard") := by
  refine ⟨?_, ?_, ?_, ?_, ?_, ?_, ?_⟩
  · intro h; simp [App.renderContent, ht, hne, h]
  · intro h; simp [App.renderContent, ht, hne, h]
  · intro h; simp [App.renderContent, ht, hne, h]
  · intro h; simp [App.renderContent, ht, hne, h]
  · intro h; simp [App.renderContent, ht, hne, h]
  · intro h1 h2 h3 h4 h5; simp [App.renderContent, ht, hne, h1, h2, h3, h4, h5]
  · intro localStorage; rfl

theorem C2_page_resolution_witness :
    App.renderContent { currentPage := "new-post", token := some "abc", isSidebarOpen := false }
        "/auth-success" = View.PostCreator "abc" (Callback.setCurrentPage "scheduler") ∧
      App.renderContent { currentPage := "profile", token := some "abc", isSidebarOpen := false }
        "/" = View.Dashboard "abc" :=
  ⟨(C2_page_resolution
      { currentPage := "new-post", token := some "abc", isSidebarOpen := false }
      "/auth-success" "abc" rfl (by decide)).2.2.2.2.1 rfl,
   (C2_page_resolution
      { currentPage := "profile", token := some "abc", isSidebarOpen := false }
      "/" "abc" rfl (by decide)).2.2.2.2.2.1
      (by decide) (by decide) (by decide) (by decide) (by decide)⟩

/-- C3, as stated, fails at the query `?token=`: the parameter is present
with the empty value, and the effect navigates to `/login`, writes nothing to
storage and leaves the token of `App` as it was. -/
theorem C3_callback_success_counterexample :
    URLSearchParams.get [("token", "")] "token" = some "" ∧
      AuthSuccess.effect [("token", "")]
          { localStorage := [], app := App.init [], navigations := [], console := [] }
        = { localStorage := [], app := App.init [], navigations := ["/login"],
            console := ["JWT token not found in URL."] } := by
  constructor <;> rfl

/-- C3 (callback success, amended): when the query string has a `token`
parameter with value `T`, then if `T` is not empty the effect of
`AuthSuccess` writes `T` under `jwtToken`, sets the token of `App` to `T`,
navigates to `/` and nowhere else, and logs nothing; and if `T` is empty it
does what it does without a `token` parameter: it logs the error, navigates
to `/login` and nowhere else, and leaves storage and the state of `App`
unchanged. -/
theorem C3_callback_success (search : URLSearchParams) (w : World) (T : String)
    (hget : URLSearchParams.get search "token" = some T) :
    (T ≠ "" →
      (AuthSuccess.effect search w).localStorage
          = Storage.setItem w.localStorage "jwtToken" T ∧
        Storage.getItem (AuthSuccess.effect search w).localStorage "jwtToken" = some T ∧
        (AuthSuccess.effect search w).app.token = some T ∧
        (AuthSuccess.effect search w).navigations = w.navigations ++ ["/"] ∧
        (AuthSuccess.effect search w).app
          = { currentPage := w.app.currentPage, token := some T,
              isSidebarOpen := w.app.isSidebarOpen } ∧
        (AuthSuccess.effect search w).console = w.console) ∧
      (T = "" →
        (AuthSuccess.effect search w).navigations = w.navigations ++ ["/login"] ∧
          (AuthSuccess.effect search w).localStorage = w.localStorage ∧
          (AuthSuccess.effect search w).app = w.app ∧
          (AuthSuccess.effect search w).console
            = w.console ++ ["JWT token not found in URL."] ∧
          (∀ absent : URLSearchParams, URLSearchParams.get absent "token" = none →
            AuthSuccess.effect search w = AuthSuccess.effect absent w)) := by
  constructor
  · intro hne
    simp [AuthSuccess.effect, hget, hne, App.setToken, Storage.getItem_setItem_same]
  · intro he
    subst he
    refine ⟨?_, ?_, ?_, ?_, ?_⟩
    · simp [AuthSuccess.effect, hget]
    · simp [AuthSuccess.effect, hget]
    · simp [AuthSuccess.effect, hget]
    · simp [AuthSuccess.effect, hget]
    · intro absent habsent
      simp [AuthSuccess.effect, hget, habsent]

theorem C3_callback_success_witness :
    ((AuthSuccess.effect [("state", "x"), ("token", "abc")]
        { localStorage := [("theme", "dark")], app := App.init [("theme", "dark")],
          navigations := [], console := [] }).localStorage
        = [("theme", "dark"), ("jwtToken", "abc")] ∧
      (AuthSuccess.effect [("state", "x"), ("token", "abc")]
        { localStorage := [("theme", "dark")], app := App.init [("theme", "dark")],
          navigations := [], console := [] }).navigations = ["/"]) ∧
      (AuthSuccess.effect [("token", ""), ("state", "x")]
        { localStorage := [("jwtToken", "old")], app := App.init [("jwtToken", "old")],
          navigations := [], console := [] }).navigations = ["/login"] ∧
      (AuthSuccess.effect [("token", ""), ("state", "x")]
        { localStorage := [("jwtToken", "old")], app := App.init [("jwtToken", "old")],
          navigations := [], console := [] }).localStorage = [("jwtToken", "old")] :=
  ⟨⟨((C3_callback_success [("state", "x"), ("token", "abc")]
        { localStorage := [("theme", "dark")], app := App.init [("theme", "dark")],
          navigations := [], console := [] } "abc" (by decide)).1 (by decide)).1,
    ((C3_callback_success [("state", "x"), ("token", "abc")]
        { localStorage := [("theme", "dark")], app := App.init [("theme", "dark")],
          navigations := [], console := [] } "abc" (by decide)).1 (by decide)).2.2.2.1⟩,
   ((C3_callback_success [("token", ""), ("state", "x")]
        { localStorage := [("jwtToken", "old")], app := App.init [("jwtToken", "old")],
          navigations := [], console := [] } "" (by decide)).2 rfl).1,
   ((C3_callback_success [("token", ""), ("state", "x")]
        { localStorage := [("jwtToken", "old")], app := App.init [("jwtToken", "old")],
          navigations := [], console := [] } "" (by decide)).2 rfl).2.1⟩

/-- C4 (callback failure): when the query string has no `token` parameter,
the effect of `AuthSuccess` navigates to `/login` and nowhere else, leaves
durable storage unchanged and does not call `setToken`: the state of `App`
is unchanged. -/
theorem C4_callback_failure (search : URLSearchParams) (w : World)
    (hget : URLSearchParams.get search "token" = none) :
    (AuthSuccess.effect search w).navigations = w.navigations ++ ["/login"] ∧
      (AuthSuccess.effect search w).localStorage = w.localStorage ∧
      (AuthSuccess.effect search w).app = w.app := by
  simp [AuthSuccess.effect, hget]

theorem C4_callback_failure_witness :
    (AuthSuccess.effect [("code", "42")]
        { localStorage := [("jwtToken", "old")], app := App.init [("jwtToken", "old")],
          navigations := [], console := [] }).navigations = ["/login"] ∧
      (AuthSuccess.effect [("code", "42")]
        { localStorage := [("jwtToken", "old")], app := App.init [("jwtToken", "old")],
          navigations := [], console := [] }).localStorage = [("jwtToken", "old")] ∧
      (AuthSuccess.effect [("code", "42")]
        { localStorage := [("jwtToken", "old")], app := App.init [("jwtToken", "old")],
          navigations := [], console := [] }).app = App.init [("jwtToken", "old")] :=
  C4_callback_failure [("code", "42")]
    { localStorage := [("jwtToken", "old")], app := App.init [("jwtToken", "old")],
      navigations := [], console := [] } (by decide)

/-- C5 (persistence round trip): whatever durable storage held before, after
`localStorage.setItem('jwtToken', c)` a fresh initialisation of `App` starts
with token `c`, also when other keys are written in between; and this is
what the callback handler stores for a non-empty `token` parameter. -/
theorem C5_persistence_round_trip (prior : Storage) (c : String)
    (writes : List (String × String)) (hw : ∀ kv ∈ writes, kv.1 ≠ "jwtToken") :
    (App.init (Storage.setItem prior "jwtToken" c)).token = some c ∧
      (App.init (Storage.setItems (Storage.setItem prior "jwtToken" c) writes)).token
        = some c ∧
      (∀ (search : URLSearchParams) (w : World), w.localStorage = prior →
        URLSearchParams.get search "token" = some c → c ≠ "" →
        (App.init (Storage.setItems (AuthSuccess.effect search w).localStorage writes)).token
          = some c) := by
  have h1 : Storage.getItem (Storage.setItem prior "jwtToken" c) "jwtToken" = some c :=
    Storage.getItem_setItem_same prior "jwtToken" c
  have h2 : Storage.getItem (Storage.setItems (Storage.setItem prior "jwtToken" c) writes)
      "jwtToken" = some c := by
    rw [Storage.getItem_setItems_other writes "jwtToken" hw, h1]
  refine ⟨h1, h2, ?_⟩
  intro search w hprior hget hne
  have h3 : (AuthSuccess.effect search w).localStorage
      = Storage.setItem prior "jwtToken" c := by
    simp [AuthSuccess.effect, hget, hne, hprior]
  show Storage.getItem _ "jwtToken" = some c
  rw [h3]
  exact h2

theorem C5_persistence_round_trip_witness :
    (App.init (Storage.setItems
        (Storage.setItem [("jwtToken", "old"), ("theme", "dark")] "jwtToken" "new")
        [("theme", "light"), ("lang", "en")])).token = some "new" :=
  (C5_persistence_round_trip [("jwtToken", "old"), ("theme", "dark")] "new"
    [("theme", "light"), ("lang", "en")] (by decide)).2.1

/-! ## Post creation -/

theorem FetchOutcome.isSuccess_eq_false_iff {α : Type} (outcome : FetchOutcome α) :
    outcome.isSuccess = false ↔
      (∃ message, outcome = .networkError message) ∨
      (∃ status json, outcome = .response status json ∧
        FetchOutcome.statusOk status = false) ∨
      (∃ status message, outcome = .response status (.error message)) := by
  cases outcome with
  | networkError message => simp [FetchOutcome.isSuccess]
  | response status json =>
    cases json with
    | error message => simp [FetchOutcome.isSuccess]
    | ok data => simp [FetchOutcome.isSuccess]

theorem App.renderContent_eq_PostCreator (app : AppState) (pathname token : String)
    (cb : Callback) (h : App.renderContent app pathname = View.PostCreator token cb) :
    app.token = some token ∧ token ≠ "" ∧ app.currentPage = "new-post" ∧
      cb = Callback.setCurrentPage "scheduler" := by
  unfold App.renderContent at h
  split at h
  · split at h <;> simp at h
  · rename_i t ht
    split_ifs at h
    all_goals simp_all

/-- C6 (post-creation transition): when `PostCreator` is the rendered view
and the schedule time of the form converts to the instant `iso`, one run of
`handleSubmit` issues exactly one request, a POST to `/api/posts` of the post
service with the body `platform, content, scheduledAt: iso` and the headers
`Content-Type: application/json` and `Authorization: Bearer <token>` for the
token of `App`; and when the response is 2xx and decodes, the completion
callback runs exactly once and the selected page is `scheduler` afterwards. -/
theorem C6_post_creation (toISOString : String → Except String String) (app : AppState)
    (pathname token iso : String) (cb : Callback) (outcome : FetchOutcome Post)
    (s : PostCreatorState)
    (hview : App.renderContent app pathname = View.PostCreator token cb)
    (hiso : toISOString s.scheduledAt = .ok iso) :
    app.token = some token ∧
      requestsOf (PostCreator.handleSubmit toISOString token (some cb) outcome s).2
        = [{ url := "http://localhost:8083/api/posts"
             method := "POST"
             headers := [("Content-Type", "application/json"),
               ("Authorization", "Bearer " ++ token)]
             body := some [("platform", s.platform), ("content", s.content),
               ("scheduledAt", iso)] }] ∧
      (outcome.isSuccess = true →
        callsOf (PostCreator.handleSubmit toISOString token (some cb) outcome s).2
            = [Callback.setCurrentPage "scheduler"] ∧
          (App.afterTrace app
            (PostCreator.handleSubmit toISOString token (some cb) outcome s).2).currentPage
            = "scheduler") := by
  obtain ⟨htok, _, _, hcb⟩ := App.renderContent_eq_PostCreator app pathname token cb hview
  subst hcb
  refine ⟨htok, ?_, ?_⟩
  · cases outcome with
    | networkError message =>
      simp [PostCreator.handleSubmit, PostCreator.handleSubmitTry, hiso, requestsOf,
        PostCreator.handleSubmitCatch, PostCreator.submitRequest, POST_API_BASE_URL]
    | response status json =>
      cases json with
      | error message =>
        by_cases hs : FetchOutcome.statusOk status = true <;>
          simp [PostCreator.handleSubmit, PostCreator.handleSubmitTry, hiso, requestsOf,
            PostCreator.handleSubmitCatch, PostCreator.submitRequest, POST_API_BASE_URL, hs]
      | ok data =>
        by_cases hs : FetchOutcome.statusOk status = true <;>
          simp [PostCreator.handleSubmit, PostCreator.handleSubmitTry, hiso, requestsOf,
            PostCreator.handleSubmitCatch, PostCreator.submitRequest, POST_API_BASE_URL, hs]
  · intro hok
    cases outcome with
    | networkError message => simp [FetchOutcome.isSuccess] at hok
    | response status json =>
      cases json with
      | error message => simp [FetchOutcome.isSuccess] at hok
      | ok data =>
        have hs : FetchOutcome.statusOk status = true := by
          simpa [FetchOutcome.isSuccess] using hok
        simp [PostCreator.handleSubmit, PostCreator.handleSubmitTry, hiso, callsOf, hs,
          App.afterTrace, App.runCallback, App.setCurrentPage]

theorem C6_post_creation_witness :
    requestsOf (PostCreator.handleSubmit (fun _ => .ok "2030-01-01T09:00:00.000Z") "abc"
        (some (Callback.setCurrentPage "scheduler"))
        (.response 201 (.ok ⟨"1", "TikTok", "Hello", "2030-01-01T09:00:00.000Z"⟩))
        { content := "Hello", platform := "TikTok", scheduledAt := "2030-01-01T10:00",
          isSubmitting := false, accounts := [] }).2
      = [{ url := "http://localhost:8083/api/posts"
           method := "POST"
           headers := [("Content-Type", "application/json"), ("Authorization", "Bearer abc")]
           body := some [("platform", "TikTok"), ("content", "Hello"),
             ("scheduledAt", "2030-01-01T09:00:00.000Z")] }] ∧
      (App.afterTrace { currentPage := "new-post", token := some "abc", isSidebarOpen := false }
        (PostCreator.handleSubmit (fun _ => .ok "2030-01-01T09:00:00.000Z") "abc"
          (some (Callback.setCurrentPage "scheduler"))
          (.response 201 (.ok ⟨"1", "TikTok", "Hello", "2030-01-01T09:00:00.000Z"⟩))
          { content := "Hello", platform := "TikTok", scheduledAt := "2030-01-01T10:00",
            isSubmitting := false, accounts := [] }).2).currentPage = "scheduler" :=
  have h := C6_post_creation (fun _ => .ok "2030-01-01T09:00:00.000Z")
    { currentPage := "new-post", token := some "abc", isSidebarOpen := false } "/" "abc"
    "2030-01-01T09:00:00.000Z" (Callback.setCurrentPage "scheduler")
    (.response 201 (.ok ⟨"1", "TikTok", "Hello", "2030-01-01T09:00:00.000Z"⟩))
    { content := "Hello", platform := "TikTok", scheduledAt := "2030-01-01T10:00",
      isSubmitting := false, accounts := [] } (by decide) rfl
  ⟨h.2.1, (h.2.2 (by decide)).2⟩

/-! ## Failure handling of the fetches -/

theorem Dashboard.fetchAnalytics_of_failure (outcome : FetchOutcome (List AnalyticsPoint))
    (h : outcome.isSuccess = false) (s : DashboardState) :
    ∃ message, Dashboard.fetchAnalytics outcome s = Dashboard.fetchAnalyticsCatch message s := by
  cases outcome with
  | networkError message => exact ⟨message, rfl⟩
  | response status json =>
    by_cases hs : FetchOutcome.statusOk status = true
    · cases json with
      | error message => exact ⟨message, by simp [Dashboard.fetchAnalytics, hs]⟩
      | ok data => simp [FetchOutcome.isSuccess, hs] at h
    · exact ⟨"Failed to fetch analytics.", by simp [Dashboard.fetchAnalytics, hs]⟩

/-- The sibling paths that do read `response.ok`: on a non-2xx response the
two fetches of `Dashboard` store nothing, and `handleSubmit` invokes no
callback. -/
theorem non2xx_is_failure_where_checked (status : Nat)
    (h : FetchOutcome.statusOk status = false)
    (accountsBody : Except String (List Account))
    (analyticsBody : Except String (List AnalyticsPoint)) (postBody : Except String Post)
    (toISOString : String → Except String String) (token : String)
    (onPostCreated : Option Callback) (d : DashboardState) (s : PostCreatorState) :
    (Dashboard.fetchAccounts (.response status accountsBody) d).accounts = d.accounts ∧
      (Dashboard.fetchAnalytics (.response status analyticsBody) d).analyticsData
        = d.analyticsData ∧
      callsOf (PostCreator.handleSubmit toISOString token onPostCreated
        (.response status postBody) s).2 = [] := by
  refine ⟨?_, ?_, ?_⟩
  · simp [Dashboard.fetchAccounts, h, Dashboard.fetchAccountsCatch]
  · simp [Dashboard.fetchAnalytics, h, Dashboard.fetchAnalyticsCatch]
  · cases hd : toISOString s.scheduledAt <;>
      simp [PostCreator.handleSubmit, PostCreator.handleSubmitTry, hd, h,
        PostCreator.handleSubmitCatch, callsOf]

theorem Dashboard.accountsGrid_eq (accounts : List Account) :
    Dashboard.accountsGrid accounts
      = if accounts = [] then
          [.message
            "No accounts connected yet. Please go to your profile to connect a new one."]
        else accounts.map AccountsItem.AccountCard := by
  cases accounts <;> simp [Dashboard.accountsGrid]

/-- C7, as stated, fails: with the accounts fetch answered by one account and
the analytics fetch rejected, the final view is the page with that account
and the chart over the empty series. It shows no error, the `error` slot is
`null`, and the view is the one rendered when the analytics fetch succeeds
with an empty series. -/
theorem C7_partial_failure_counterexample :
    Dashboard.render (Dashboard.effect (some "abc") .accountsFirst
        (.response 200 (.ok [⟨"u1", "TikTok", "ann", 10, "http://x/p.png"⟩]))
        (.networkError "Failed to fetch") Dashboard.init)
      = .page [.AccountCard ⟨"u1", "TikTok", "ann", 10, "http://x/p.png"⟩] [] ∧
    (Dashboard.render (Dashboard.effect (some "abc") .accountsFirst
        (.response 200 (.ok [⟨"u1", "TikTok", "ann", 10, "http://x/p.png"⟩]))
        (.networkError "Failed to fetch") Dashboard.init)).showsError = false ∧
    (Dashboard.effect (some "abc") .accountsFirst
        (.response 200 (.ok [⟨"u1", "TikTok", "ann", 10, "http://x/p.png"⟩]))
        (.networkError "Failed to fetch") Dashboard.init).error = none ∧
    Dashboard.render (Dashboard.effect (some "abc") .accountsFirst
        (.response 200 (.ok [⟨"u1", "TikTok", "ann", 10, "http://x/p.png"⟩]))
        (.networkError "Failed to fetch") Dashboard.init)
      = Dashboard.render (Dashboard.effect (some "abc") .accountsFirst
        (.response 200 (.ok [⟨"u1", "TikTok", "ann", 10, "http://x/p.png"⟩]))
        (.response 200 (.ok [])) Dashboard.init) := by
  decide

/-- C7 (partial failure isolation, amended): for every accounts list of a
successful accounts fetch and every failed analytics fetch, in either order
of completion, the final state of a freshly mounted `Dashboard` holds exactly
those accounts, is not loading and has no error; it renders the page whose
accounts grid is exactly one `AccountCard` per account, in order (the one
empty-state message when there is no account), and whose chart is over the
initial empty series, and no error: the analytics failure is only written
to the console. -/
theorem C7_partial_failure (token : String) (order : Dashboard.Order) (status : Nat)
    (accounts : List Account) (analyticsOutcome : FetchOutcome (List AnalyticsPoint))
    (htoken : token ≠ "") (hstatus : FetchOutcome.statusOk status = true)
    (hfail : analyticsOutcome.isSuccess = false) :
    (Dashboard.effect (some token) order (.response status (.ok accounts))
        analyticsOutcome Dashboard.init).accounts = accounts ∧
      (Dashboard.effect (some token) order (.response status (.ok accounts))
        analyticsOutcome Dashboard.init).isLoading = false ∧
      (Dashboard.effect (some token) order (.response status (.ok accounts))
        analyticsOutcome Dashboard.init).error = none ∧
      (Dashboard.effect (some token) order (.response status (.ok accounts))
        analyticsOutcome Dashboard.init).analyticsData = [] ∧
      (Dashboard.effect (some token) order (.response status (.ok accounts))
        analyticsOutcome Dashboard.init).console.length = 1 ∧
      Dashboard.render (Dashboard.effect (some token) order (.response status (.ok accounts))
        analyticsOutcome Dashboard.init)
        = .page
            (if accounts = [] then
              [.message
                "No accounts connected yet. Please go to your profile to connect a new one."]
            else accounts.map AccountsItem.AccountCard)
            [] ∧
      (Dashboard.render (Dashboard.effect (some token) order
        (.response status (.ok accounts)) analyticsOutcome Dashboard.init)).showsError
        = false := by
  have ht : truthy (some token) = true := (truthy_some_iff token).2 htoken
  cases order with
  | accountsFirst =>
    obtain ⟨message, hm⟩ := Dashboard.fetchAnalytics_of_failure analyticsOutcome hfail
      (Dashboard.fetchAccounts (.response status (.ok accounts)) Dashboard.init)
    have he : Dashboard.effect (some token) .accountsFirst (.response status (.ok accounts))
        analyticsOutcome Dashboard.init
        = Dashboard.fetchAnalyticsCatch message
          (Dashboard.fetchAccounts (.response status (.ok accounts)) Dashboard.init) := by
      unfold Dashboard.effect
      rw [if_pos ht]
      exact hm
    rw [he]
    simp [Dashboard.fetchAnalyticsCatch, Dashboard.fetchAccounts,
      hstatus, Dashboard.init, Dashboard.render, DashboardView.showsError]
    exact Dashboard.accountsGrid_eq accounts
  | analyticsFirst =>
    obtain ⟨message, hm⟩ := Dashboard.fetchAnalytics_of_failure analyticsOutcome hfail
      Dashboard.init
    have he : Dashboard.effect (some token) .analyticsFirst (.response status (.ok accounts))
        analyticsOutcome Dashboard.init
        = Dashboard.fetchAccounts (.response status (.ok accounts))
          (Dashboard.fetchAnalyticsCatch message Dashboard.init) := by
      unfold Dashboard.effect
      rw [if_pos ht]
      show Dashboard.fetchAccounts _ (Dashboard.fetchAnalytics analyticsOutcome Dashboard.init)
        = _
      rw [hm]
    rw [he]
    simp [Dashboard.fetchAnalyticsCatch, Dashboard.fetchAccounts,
      hstatus, Dashboard.init, Dashboard.render, DashboardView.showsError]
    exact Dashboard.accountsGrid_eq accounts

theorem C7_partial_failure_witness :
    Dashboard.render (Dashboard.effect (some "abc") .analyticsFirst
        (.response 200 (.ok [⟨"u1", "Meta", "bob", 3, "http://x/b.png"⟩]))
        (.response 500 (.ok [⟨"Mon", [("Meta", 5)]⟩])) Dashboard.init)
      = .page [.AccountCard ⟨"u1", "Meta", "bob", 3, "http://x/b.png"⟩] [] :=
  (C7_partial_failure "abc" .analyticsFirst 200 [⟨"u1", "Meta", "bob", 3, "http://x/b.png"⟩]
    (.response 500 (.ok [⟨"Mon", [("Meta", 5)]⟩])) (by decide) (by decide)
    (by decide)).2.2.2.2.2.1

/-- C8 fails on three fetches that never read `response.ok`: a 401 answer to
`Scheduler.fetchPosts`, a 500 answer to `Analytics.fetchAnalytics` and a 403
answer to `PostCreator.fetchAccounts` each have their decoded body stored in
the collection of the view, and the last one also sets the platform of the
form to that of the first account of the body. -/
theorem C8_non2xx_body_is_stored :
    FetchOutcome.statusOk 401 = false ∧
      (Scheduler.fetchPosts (.response 401 (.ok [⟨"1", "Meta", "Hi", "2030-01-01T09:00:00Z"⟩]))
        Scheduler.init).posts = [⟨"1", "Meta", "Hi", "2030-01-01T09:00:00Z"⟩] ∧
      FetchOutcome.statusOk 500 = false ∧
      (Analytics.fetchAnalytics (.response 500 (.ok [⟨"Mon", [("Meta", 5)]⟩]))
        Analytics.init).analyticsData = [⟨"Mon", [("Meta", 5)]⟩] ∧
      FetchOutcome.statusOk 403 = false ∧
      (PostCreator.fetchAccounts
        (.response 403 (.ok [⟨"u1", "TikTok", "ann", 10, "http://x/p.png"⟩]))
        PostCreator.init).1.accounts = [⟨"u1", "TikTok", "ann", 10, "http://x/p.png"⟩] ∧
      (PostCreator.fetchAccounts
        (.response 403 (.ok [⟨"u1", "TikTok", "ann", 10, "http://x/p.png"⟩]))
        PostCreator.init).1.platform = "TikTok" := by
  decide

/-! ## Submission failures and validation -/

theorem PostCreator.handleSubmitTry_of_failure (toISOString : String → Except String String)
    (token : String) (onPostCreated : Option Callback) (outcome : FetchOutcome Post)
    (s : PostCreatorState) (h : outcome.isSuccess = false) :
    ∃ message,
      PostCreator.handleSubmitTry toISOString token onPostCreated outcome s
          = PostCreator.handleSubmitCatch message ∨
        ∃ iso, PostCreator.handleSubmitTry toISOString token onPostCreated outcome s
          = .fetch (PostCreator.submitRequest token s iso) ::
            PostCreator.handleSubmitCatch message := by
  unfold PostCreator.handleSubmitTry
  cases hd : toISOString s.scheduledAt with
  | error message => exact ⟨message, Or.inl rfl⟩
  | ok iso =>
    cases outcome with
    | networkError message => exact ⟨message, Or.inr ⟨iso, rfl⟩⟩
    | response status json =>
      by_cases hs : FetchOutcome.statusOk status = true
      · cases json with
        | error message => exact ⟨message, Or.inr ⟨iso, by simp [hs]⟩⟩
        | ok data => simp [FetchOutcome.isSuccess, hs] at h
      · exact ⟨"Failed to create post.", Or.inr ⟨iso, by simp [hs]⟩⟩

/-- C9 (submit failure is atomic on the form): for every form state, when
the request of `handleSubmit` fails (the fetch rejects, the response is not
2xx, or its body does not decode), after `handleSubmit` the fields `content`,
`platform` and `scheduledAt` are as before, no callback was invoked and so
the state of `App` is unchanged, the one alert shown is the failure
message, and `isSubmitting` is false, set so by the last effect. -/
theorem C9_submit_failure (toISOString : String → Except String String) (token : String)
    (onPostCreated : Option Callback) (outcome : FetchOutcome Post) (s : PostCreatorState)
    (app : AppState) (hfail : outcome.isSuccess = false) :
    (PostCreator.handleSubmit toISOString token onPostCreated outcome s).1.content
        = s.content ∧
      (PostCreator.handleSubmit toISOString token onPostCreated outcome s).1.platform
        = s.platform ∧
      (PostCreator.handleSubmit toISOString token onPostCreated outcome s).1.scheduledAt
        = s.scheduledAt ∧
      callsOf (PostCreator.handleSubmit toISOString token onPostCreated outcome s).2 = [] ∧
      App.afterTrace app
        (PostCreator.handleSubmit toISOString token onPostCreated outcome s).2 = app ∧
      alertsOf (PostCreator.handleSubmit toISOString token onPostCreated outcome s).2
        = ["Failed to schedule post."] ∧
      (PostCreator.handleSubmit toISOString token onPostCreated outcome s).1.isSubmitting
        = false ∧
      (PostCreator.handleSubmit toISOString token onPostCreated outcome s).2.getLast?
        = some (Effect.setIsSubmitting false) := by
  obtain ⟨message, h | ⟨iso, h⟩⟩ :=
    PostCreator.handleSubmitTry_of_failure toISOString token onPostCreated outcome s hfail
  · simp [PostCreator.handleSubmit, h, PostCreator.handleSubmitCatch, callsOf, alertsOf,
      App.afterTrace]
  · simp [PostCreator.handleSubmit, h, PostCreator.handleSubmitCatch, callsOf, alertsOf,
      App.afterTrace]

theorem C9_submit_failure_witness :
    PostCreator.handleSubmit (fun _ => .ok "2030-01-01T09:00:00.000Z") "abc"
        (some (Callback.setCurrentPage "scheduler"))
        (.response 401 (.ok ⟨"1", "TikTok", "Hello", "2030-01-01T09:00:00.000Z"⟩))
        { content := "Hello", platform := "TikTok", scheduledAt := "2030-01-01T10:00",
          isSubmitting := false, accounts := [] }
      = ({ content := "Hello", platform := "TikTok", scheduledAt := "2030-01-01T10:00",
           isSubmitting := false, accounts := [] },
         [.setIsSubmitting true,
          .fetch (PostCreator.submitRequest "abc"
            { content := "Hello", platform := "TikTok", scheduledAt := "2030-01-01T10:00",
              isSubmitting := false, accounts := [] } "2030-01-01T09:00:00.000Z"),
          .consoleError "Error creating post:" "Failed to create post.",
          .alert "Failed to schedule post.",
          .setIsSubmitting false]) ∧
      alertsOf (PostCreator.handleSubmit (fun _ => .ok "2030-01-01T09:00:00.000Z") "abc"
        (some (Callback.setCurrentPage "scheduler"))
        (.response 401 (.ok ⟨"1", "TikTok", "Hello", "2030-01-01T09:00:00.000Z"⟩))
        { content := "Hello", platform := "TikTok", scheduledAt := "2030-01-01T10:00",
          isSubmitting := false, accounts := [] }).2 = ["Failed to schedule post."] :=
  ⟨by decide,
   (C9_submit_failure (fun _ => .ok "2030-01-01T09:00:00.000Z") "abc"
    (some (Callback.setCurrentPage "scheduler"))
    (.response 401 (.ok ⟨"1", "TikTok", "Hello", "2030-01-01T09:00:00.000Z"⟩))
    { content := "Hello", platform := "TikTok", scheduledAt := "2030-01-01T10:00",
      isSubmitting := false, accounts := [] }
    { currentPage := "new-post", token := some "abc", isSidebarOpen := false }
    (by decide)).2.2.2.2.2.1⟩

/-- C10, as stated, fails: `handleSubmit` has no presence check. Run on a
form whose platform and content are empty and whose schedule time converts,
it issues the POST with the empty platform and content, and on a 201 answer
it invokes the completion callback. The `required` attributes of the three
controls (lines 274, 290, 300) are checked by the browser before it calls
the handler, not by `handleSubmit`. -/
theorem C10_submit_validation_counterexample :
    requestsOf (PostCreator.handleSubmit (fun _ => .ok "2030-01-01T09:00:00.000Z") "abc"
        (some (Callback.setCurrentPage "scheduler"))
        (.response 201 (.ok ⟨"1", "", "", "2030-01-01T09:00:00.000Z"⟩))
        { content := "", platform := "", scheduledAt := "2030-01-01T10:00",
          isSubmitting := false, accounts := [] }).2
      = [{ url := "http://localhost:8083/api/posts"
           method := "POST"
           headers := [("Content-Type", "application/json"), ("Authorization", "Bearer abc")]
           body := some [("platform", ""), ("content", ""),
             ("scheduledAt", "2030-01-01T09:00:00.000Z")] }] ∧
      callsOf (PostCreator.handleSubmit (fun _ => .ok "2030-01-01T09:00:00.000Z") "abc"
        (some (Callback.setCurrentPage "scheduler"))
        (.response 201 (.ok ⟨"1", "", "", "2030-01-01T09:00:00.000Z"⟩))
        { content := "", platform := "", scheduledAt := "2030-01-01T10:00",
          isSubmitting := false, accounts := [] }).2
      = [Callback.setCurrentPage "scheduler"] := by
  decide

/-- C10 (submit validation, amended): `handleSubmit` checks the presence of
no field. For every form state, a run of it whose schedule time does not
convert to an instant, as the empty schedule time does not, issues no
request, invokes no callback and alerts the failure; and a run whose
schedule time converts issues exactly one POST, which carries the platform
and the content as they are, empty or not. -/
theorem C10_submit_validation (toISOString : String → Except String String)
    (token : String) (onPostCreated : Option Callback) (outcome : FetchOutcome Post)
    (s : PostCreatorState) :
    (∀ message, toISOString s.scheduledAt = .error message →
      requestsOf (PostCreator.handleSubmit toISOString token onPostCreated outcome s).2 = [] ∧
        callsOf (PostCreator.handleSubmit toISOString token onPostCreated outcome s).2 = [] ∧
        alertsOf (PostCreator.handleSubmit toISOString token onPostCreated outcome s).2
          = ["Failed to schedule post."]) ∧
      (∀ iso, toISOString s.scheduledAt = .ok iso →
        requestsOf (PostCreator.handleSubmit toISOString token onPostCreated outcome s).2
          = [{ url := "http://localhost:8083/api/posts"
               method := "POST"
               headers := [("Content-Type", "application/json"),
                 ("Authorization", "Bearer " ++ token)]
               body := some [("platform", s.platform), ("content", s.content),
                 ("scheduledAt", iso)] }]) := by
  constructor
  · intro message hd
    simp [PostCreator.handleSubmit, PostCreator.handleSubmitTry, hd,
      PostCreator.handleSubmitCatch, requestsOf, callsOf, alertsOf]
  · intro iso hd
    cases outcome with
    | networkError message =>
      simp [PostCreator.handleSubmit, PostCreator.handleSubmitTry, hd, requestsOf,
        PostCreator.handleSubmitCatch, PostCreator.submitRequest, POST_API_BASE_URL]
    | response status json =>
      cases json with
      | error message =>
        by_cases hs : FetchOutcome.statusOk status = true <;>
          simp [PostCreator.handleSubmit, PostCreator.handleSubmitTry, hd, requestsOf,
            PostCreator.handleSubmitCatch, PostCreator.submitRequest, POST_API_BASE_URL, hs]
      | ok data =>
        by_cases hs : FetchOutcome.statusOk status = true <;>
          cases onPostCreated <;>
          simp [PostCreator.handleSubmit, PostCreator.handleSubmitTry, hd, requestsOf,
            PostCreator.handleSubmitCatch, PostCreator.submitRequest, POST_API_BASE_URL, hs]

theorem C10_submit_validation_witness :
    (requestsOf (PostCreator.handleSubmit
        (fun t => if t = "" then .error "Invalid time value"
          else .ok "2030-01-01T09:00:00.000Z") "abc"
        (some (Callback.setCurrentPage "scheduler"))
        (.response 201 (.ok ⟨"1", "TikTok", "Hello", "2030-01-01T09:00:00.000Z"⟩))
        { content := "Hello", platform := "TikTok", scheduledAt := "",
          isSubmitting := false, accounts := [] }).2 = [] ∧
      callsOf (PostCreator.handleSubmit
        (fun t => if t = "" then .error "Invalid time value"
          else .ok "2030-01-01T09:00:00.000Z") "abc"
        (some (Callback.setCurrentPage "scheduler"))
        (.response 201 (.ok ⟨"1", "TikTok", "Hello", "2030-01-01T09:00:00.000Z"⟩))
        { content := "Hello", platform := "TikTok", scheduledAt := "",
          isSubmitting := false, accounts := [] }).2 = [] ∧
      alertsOf (PostCreator.handleSubmit
        (fun t => if t = "" then .error "Invalid time value"
          else .ok "2030-01-01T09:00:00.000Z") "abc"
        (some (Callback.setCurrentPage "scheduler"))
        (.response 201 (.ok ⟨"1", "TikTok", "Hello", "2030-01-01T09:00:00.000Z"⟩))
        { content := "Hello", platform := "TikTok", scheduledAt := "",
          isSubmitting := false, accounts := [] }).2 = ["Failed to schedule post."]) ∧
      requestsOf (PostCreator.handleSubmit
        (fun t => if t = "" then .error "Invalid time value"
          else .ok "2030-01-01T09:00:00.000Z") "abc"
        (some (Callback.setCurrentPage "scheduler"))
        (.networkError "Failed to fetch")
        { content := "", platform := "Meta", scheduledAt := "2030-01-01T10:00",
          isSubmitting := false, accounts := [] }).2
        = [{ url := "http://localhost:8083/api/posts"
             method := "POST"
             headers := [("Content-Type", "application/json"),
               ("Authorization", "Bearer abc")]
             body := some [("platform", "Meta"), ("content", ""),
               ("scheduledAt", "2030-01-01T09:00:00.000Z")] }] :=
  ⟨(C10_submit_validation
      (fun t => if t = "" then .error "Invalid time value"
        else .ok "2030-01-01T09:00:00.000Z") "abc"
      (some (Callback.setCurrentPage "scheduler"))
      (.response 201 (.ok ⟨"1", "TikTok", "Hello", "2030-01-01T09:00:00.000Z"⟩))
      { content := "Hello", platform := "TikTok", scheduledAt := "",
        isSubmitting := false, accounts := [] }).1 "Invalid time value" rfl,
   (C10_submit_validation
      (fun t => if t = "" then .error "Invalid time value"
        else .ok "2030-01-01T09:00:00.000Z") "abc"
      (some (Callback.setCurrentPage "scheduler"))
      (.networkError "Failed to fetch")
      { content := "", platform := "Meta", scheduledAt := "2030-01-01T10:00",
        isSubmitting := false, accounts := [] }).2 "2030-01-01T09:00:00.000Z" (by simp)⟩

/-! ## The credential is written by the callback handler only -/

theorem App.runCallback_token (app : AppState) (callback : Callback) :
    (App.runCallback app callback).token = app.token := by
  cases callback
  rfl

theorem App.afterTrace_token (app : AppState) (trace : List Effect) :
    (App.afterTrace app trace).token = app.token := by
  unfold App.afterTrace
  generalize callsOf trace = calls
  induction calls generalizing app with
  | nil => rfl
  | cons callback rest ih =>
    rw [List.foldl_cons, ih, App.runCallback_token]

theorem AuthSuccess.effect_of_falsy (search : URLSearchParams) (w : World)
    (h : truthy (URLSearchParams.get search "token") = false) :
    (AuthSuccess.effect search w).localStorage = w.localStorage ∧
      (AuthSuccess.effect search w).app = w.app := by
  rcases (truthy_eq_false_iff _).1 h with h | h <;> simp [AuthSuccess.effect, h]

/-- C11 (failures never clear the credential): for every outcome of every
fetch issued by `Dashboard`, `Scheduler`, `Analytics` and `PostCreator`, and
more generally for every operation of the program other than the success
branch of the callback handler, the token of `App` and the content of
durable storage, the value under `jwtToken` included, are after the
operation what they were before it. -/
theorem C11_credential_frame (sys : System) (op : Operation)
    (h : op.isFetchOutcome = true ∨ op.isCallbackSuccess = false) :
    (sys.step op).world.app.token = sys.world.app.token ∧
      Storage.getItem (sys.step op).world.localStorage "jwtToken"
        = Storage.getItem sys.world.localStorage "jwtToken" ∧
      (sys.step op).world.localStorage = sys.world.localStorage := by
  have key : (sys.step op).world.app.token = sys.world.app.token ∧
      (sys.step op).world.localStorage = sys.world.localStorage := by
    cases op with
    | authSuccessEffect search =>
      have hf : truthy (URLSearchParams.get search "token") = false := by
        rcases h with h | h
        · simp [Operation.isFetchOutcome] at h
        · simpa [Operation.isCallbackSuccess] using h
      obtain ⟨h1, h2⟩ := AuthSuccess.effect_of_falsy search sys.world hf
      exact ⟨by simp [System.step, h2], by simp [System.step, h1]⟩
    | postCreatorAccounts outcome =>
      exact ⟨App.afterTrace_token _ _, rfl⟩
    | postCreatorSubmit toISOString token onPostCreated outcome =>
      exact ⟨App.afterTrace_token _ _, rfl⟩
    | _ => exact ⟨rfl, rfl⟩
  exact ⟨key.1, by rw [key.2], key.2⟩

theorem C11_credential_frame_witness :
    ((System.step
        { world := { localStorage := [("jwtToken", "abc")], app := App.init [("jwtToken", "abc")],
                     navigations := [], console := [] }
          dashboard := Dashboard.init, scheduler := Scheduler.init,
          analytics := Analytics.init, postCreator := PostCreator.init }
        (.dashboardAccounts (.response 401 (.ok [])))).world.app.token = some "abc" ∧
      Storage.getItem (System.step
        { world := { localStorage := [("jwtToken", "abc")], app := App.init [("jwtToken", "abc")],
                     navigations := [], console := [] }
          dashboard := Dashboard.init, scheduler := Scheduler.init,
          analytics := Analytics.init, postCreator := PostCreator.init }
        (.dashboardAccounts (.response 401 (.ok [])))).world.localStorage "jwtToken"
        = some "abc") ∧
      (System.step
        { world := { localStorage := [("jwtToken", "abc")], app := App.init [("jwtToken", "abc")],
                     navigations := [], console := [] }
          dashboard := Dashboard.init, scheduler := Scheduler.init,
          analytics := Analytics.init, postCreator := PostCreator.init }
        (.authSuccessEffect [("code", "42")])).world.app.token = some "abc" :=
  ⟨⟨(C11_credential_frame
      { world := { localStorage := [("jwtToken", "abc")], app := App.init [("jwtToken", "abc")],
                   navigations := [], console := [] }
        dashboard := Dashboard.init, scheduler := Scheduler.init,
        analytics := Analytics.init, postCreator := PostCreator.init }
      (.dashboardAccounts (.response 401 (.ok []))) (Or.inl rfl)).1,
    (C11_credential_frame
      { world := { localStorage := [("jwtToken", "abc")], app := App.init [("jwtToken", "abc")],
                   navigations := [], console := [] }
        dashboard := Dashboard.init, scheduler := Scheduler.init,
        analytics := Analytics.init, postCreator := PostCreator.init }
      (.dashboardAccounts (.response 401 (.ok []))) (Or.inl rfl)).2.1⟩,
   (C11_credential_frame
      { world := { localStorage := [("jwtToken", "abc")], app := App.init [("jwtToken", "abc")],
                   navigations := [], console := [] }
        dashboard := Dashboard.init, scheduler := Scheduler.init,
        analytics := Analytics.init, postCreator := PostCreator.init }
      (.authSuccessEffect [("code", "42")]) (Or.inr (by decide))).1⟩

/-! ## Empty states -/

theorem Dashboard.render_after_accounts (token : String) (order : Dashboard.Order)
    (status : Nat) (accounts : List Account)
    (analyticsOutcome : FetchOutcome (List AnalyticsPoint))
    (htoken : token ≠ "") (hstatus : FetchOutcome.statusOk status = true) :
    ∃ chartData,
      Dashboard.render (Dashboard.effect (some token) order (.response status (.ok accounts))
        analyticsOutcome Dashboard.init) = .page (Dashboard.accountsGrid accounts) chartData := by
  have ht : truthy (some token) = true := (truthy_some_iff token).2 htoken
  have hacc : ∀ s : DashboardState,
      Dashboard.fetchAccounts (.response status (.ok accounts)) s
        = { s with accounts := accounts, isLoading := false } := by
    intro s
    simp [Dashboard.fetchAccounts, hstatus]
  have hana : ∀ s : DashboardState,
      (Dashboard.fetchAnalytics analyticsOutcome s).accounts = s.accounts ∧
      (Dashboard.fetchAnalytics analyticsOutcome s).isLoading = s.isLoading ∧
      (Dashboard.fetchAnalytics analyticsOutcome s).error = s.error := by
    intro s
    cases analyticsOutcome with
    | networkError message => exact ⟨rfl, rfl, rfl⟩
    | response st json =>
      by_cases hs : FetchOutcome.statusOk st = true
      · cases json <;> simp [Dashboard.fetchAnalytics, hs, Dashboard.fetchAnalyticsCatch]
      · simp [Dashboard.fetchAnalytics, hs, Dashboard.fetchAnalyticsCatch]
  cases order with
  | accountsFirst =>
    obtain ⟨h1, h2, h3⟩ := hana (Dashboard.fetchAccounts (.response status (.ok accounts))
      Dashboard.init)
    rw [hacc] at h1 h2 h3
    refine ⟨(Dashboard.fetchAnalytics analyticsOutcome (Dashboard.fetchAccounts
      (.response status (.ok accounts)) Dashboard.init)).analyticsData, ?_⟩
    unfold Dashboard.effect
    rw [if_pos ht]
    simp only [Dashboard.render, hacc, h1, h2, h3]
    simp [Dashboard.init]
  | analyticsFirst =>
    obtain ⟨h1, h2, h3⟩ := hana Dashboard.init
    refine ⟨(Dashboard.fetchAnalytics analyticsOutcome Dashboard.init).analyticsData, ?_⟩
    unfold Dashboard.effect
    rw [if_pos ht]
    simp only [Dashboard.render, hacc, h3]
    simp [Dashboard.init]

/-- C12 (empty states): once a 2xx accounts fetch has decoded to `accounts`,
whatever the analytics fetch did and in either order, `Dashboard` renders its
page, whose grid is the one message `No accounts connected yet. ...` and no
card when `accounts` is empty, and otherwise exactly one `AccountCard` per
account, in order, and no message. Likewise once the posts fetch has decoded
to `posts`, `Scheduler` renders the one message `No posts scheduled yet.
Create one now!` and no row when `posts` is empty, and otherwise exactly one
row per post, in order, and no message. -/
theorem C12_empty_states (token : String) (order : Dashboard.Order) (status : Nat)
    (accounts : List Account) (posts : List Post)
    (analyticsOutcome : FetchOutcome (List AnalyticsPoint))
    (htoken : token ≠ "") (hstatus : FetchOutcome.statusOk status = true) :
    (∃ chartData,
      Dashboard.render (Dashboard.effect (some token) order (.response status (.ok accounts))
        analyticsOutcome Dashboard.init)
        = .page
            (if accounts = [] then
              [.message
                "No accounts connected yet. Please go to your profile to connect a new one."]
            else accounts.map AccountsItem.AccountCard)
            chartData) ∧
      Scheduler.render (Scheduler.effect (some token) (.response status (.ok posts))
        Scheduler.init)
        = .page
            (if posts = [] then [.message "No posts scheduled yet. Create one now!"]
            else posts.map PostsItem.row) := by
  have ht : truthy (some token) = true := (truthy_some_iff token).2 htoken
  constructor
  · obtain ⟨chartData, h⟩ := Dashboard.render_after_accounts token order status accounts
      analyticsOutcome htoken hstatus
    refine ⟨chartData, ?_⟩
    rw [h]
    cases accounts <;> simp [Dashboard.accountsGrid]
  · cases posts <;>
      simp [Scheduler.effect, ht, Scheduler.fetchPosts, Scheduler.init, Scheduler.render,
        Scheduler.postsList]

theorem C12_empty_states_witness :
    (∃ chartData,
      Dashboard.render (Dashboard.effect (some "abc") .analyticsFirst (.response 200 (.ok []))
        (.response 200 (.ok [⟨"Mon", [("Meta", 5)]⟩])) Dashboard.init)
        = .page
            [.message
              "No accounts connected yet. Please go to your profile to connect a new one."]
            chartData) ∧
      Scheduler.render (Scheduler.effect (some "abc")
        (.response 200 (.ok [⟨"1", "Meta", "Hi", "t1"⟩, ⟨"2", "TikTok", "Yo", "t2"⟩]))
        Scheduler.init)
        = .page [.row ⟨"1", "Meta", "Hi", "t1"⟩, .row ⟨"2", "TikTok", "Yo", "t2"⟩] :=
  C12_empty_states "abc" .analyticsFirst 200 []
    [⟨"1", "Meta", "Hi", "t1"⟩, ⟨"2", "TikTok", "Yo", "t2"⟩]
    (.response 200 (.ok [⟨"Mon", [("Meta", 5)]⟩])) (by decide) (by decide)

end SocialMediaPlatform
